import Mathlib

/-!
Verification of the expo-audio-route module (React Native London 2025 workshop).

The repository's core is an audio-route detector with two platform
implementations:

* Android (`ExpoAudioRouteModule.kt`): `currentRoute` enumerates the
  AudioManager's output devices, partitions them into wired / bluetooth /
  speaker buckets and picks the highest-priority bucket in the fixed order
  wired > bluetooth > speaker; `startObservingRouteChanges` /
  `stopObservingRouteChanges` register / unregister an `AudioDeviceCallback`.

* iOS (`ExpoAudioRouteModule.swift`): `currentRoute` inspects only the FIRST
  output port of the shared `AVAudioSession` and maps its port type to a
  route; `startObservingRouteChanges` unconditionally adds an observer to the
  shared `NotificationCenter`, `stopObservingRouteChanges` removes it when
  one is stored.

* Web (`ExpoAudioRouteModule.web.ts`): a constant stub.

We embed both classifiers as pure functions over the device enumeration, and
the observer lifecycle as explicit state passing over a module-state record,
with event emission modelled as a returned list of events.
-/

/-- Android `AudioDeviceInfo` device type tags: the constants named in
`ExpoAudioRouteModule.kt`, plus tags the platform can report that the module
does not name (`TYPE_BLE_HEADSET` is the Bluetooth low-energy audio headset
type, `TYPE_HDMI` an example of an unrelated output type). -/
inductive AndroidDeviceType where
  | TYPE_BUILTIN_EARPIECE
  | TYPE_BUILTIN_SPEAKER
  | TYPE_WIRED_HEADSET
  | TYPE_WIRED_HEADPHONES
  | TYPE_BLUETOOTH_SCO
  | TYPE_BLUETOOTH_A2DP
  | TYPE_USB_HEADSET
  | TYPE_BLE_HEADSET
  | TYPE_HDMI
  deriving DecidableEq, Repr

/-- Kotlin `wiredTypes` list in `currentRoute`. -/
def wiredTypes : List AndroidDeviceType :=
  [.TYPE_WIRED_HEADPHONES, .TYPE_WIRED_HEADSET, .TYPE_USB_HEADSET]

/-- Kotlin `bluetoothTypes` list in `currentRoute`. -/
def bluetoothTypes : List AndroidDeviceType :=
  [.TYPE_BLUETOOTH_A2DP, .TYPE_BLUETOOTH_SCO]

/-- Kotlin `speakerTypes` list in `currentRoute`. -/
def speakerTypes : List AndroidDeviceType :=
  [.TYPE_BUILTIN_SPEAKER, .TYPE_BUILTIN_EARPIECE]

/-- Android `currentRoute`. The argument models
`audioManager?.getDevices(AudioManager.GET_DEVICES_OUTPUTS)`: `none` when the
`audioManager` handle is null, otherwise the current output-device
enumeration. Mirrors the Kotlin body: the `isNullOrEmpty` early return, the
three `firstOrNull` bucket probes, the `when` selecting wired, then
bluetooth, then speaker, and the final `when (device?.type)` mapping. -/
def androidCurrentRoute (outputs : Option (List AndroidDeviceType)) : String :=
  match outputs with
  | none => "unknown"
  | some outs =>
    if outs.isEmpty then "unknown"
    else
      let wired := outs.find? (fun t => t ∈ wiredTypes)
      let bluetooth := outs.find? (fun t => t ∈ bluetoothTypes)
      let speaker := outs.find? (fun t => t ∈ speakerTypes)
      let device : Option AndroidDeviceType :=
        if wired.isSome then wired
        else if bluetooth.isSome then bluetooth
        else if speaker.isSome then speaker
        else none
      match device with
      | some t =>
        if t ∈ wiredTypes then "wiredHeadset"
        else if t ∈ bluetoothTypes then "bluetooth"
        else if t ∈ speakerTypes then "speaker"
        else "unknown"
      | none => "unknown"

/-- iOS `AVAudioSession.Port` types: the cases named in the Swift
`currentRoute` switch, plus port types the platform can report that fall to
the `default` branch (`usbAudio` is the USB headset port, `builtInReceiver`
the built-in earpiece, `airPlay` and `HDMI` further output ports). -/
inductive IOSPortType where
  | headphones
  | headsetMic
  | bluetoothA2DP
  | bluetoothLE
  | bluetoothHFP
  | builtInSpeaker
  | builtInReceiver
  | usbAudio
  | airPlay
  | HDMI
  deriving DecidableEq, Repr

/-- iOS `currentRoute`. The argument models
`AVAudioSession.sharedInstance().currentRoute.outputs` (as the list of the
ports' `portType`s). Mirrors the Swift body: `outputs.first`, the nil early
return, and the `switch` on `first?.portType`. -/
def iosCurrentRoute (outputs : List IOSPortType) : String :=
  match outputs.head? with
  | none => "unknown"
  | some p =>
    match p with
    | .headphones | .headsetMic => "wiredHeadset"
    | .bluetoothA2DP | .bluetoothLE | .bluetoothHFP => "bluetooth"
    | .builtInSpeaker => "speaker"
    | _ => "unknown"

/-- The `RouteChangeEvent` payload `{ route: AudioRoute }` sent with every
`onAudioRouteChange` emission. -/
structure RouteChangeEvent where
  route : String
  deriving DecidableEq, Repr

/-- The mutable state of the Android module: the `audioManager` field
(carrying, when acquired, its current output-device enumeration), the stored
`deviceCallback` handle, the set of callbacks currently registered with the
platform `AudioManager` (as a list of handle ids, in registration order),
and a counter supplying fresh handle ids. -/
structure AndroidModuleState where
  audioManager : Option (List AndroidDeviceType)
  deviceCallback : Option Nat
  platformRegistrations : List Nat
  nextCallbackId : Nat
  deriving DecidableEq, Repr

/-- Android `startObservingRouteChanges`: returns early when a callback
already exists or the `audioManager` is null; otherwise creates a fresh
`AudioDeviceCallback`, stores it in `deviceCallback` and registers it with
the `AudioManager`. -/
def androidStartObservingRouteChanges (s : AndroidModuleState) : AndroidModuleState :=
  if s.deviceCallback.isSome || s.audioManager.isNone then s
  else
    { s with
      deviceCallback := some s.nextCallbackId
      platformRegistrations := s.platformRegistrations ++ [s.nextCallbackId]
      nextCallbackId := s.nextCallbackId + 1 }

/-- Android `stopObservingRouteChanges`: returns early when no callback
exists or the `audioManager` is null; otherwise unregisters the stored
callback from the `AudioManager` and nulls `deviceCallback`. -/
def androidStopObservingRouteChanges (s : AndroidModuleState) : AndroidModuleState :=
  if s.deviceCallback.isNone || s.audioManager.isNone then s
  else
    { s with
      platformRegistrations :=
        s.platformRegistrations.filter (fun r => !(s.deviceCallback = some r))
      deviceCallback := none }

/-- The mutable state of the iOS module: the session's current output ports,
the stored `routeChangeObserver` token, the observers currently registered
with the shared `NotificationCenter` (as a list of tokens, in registration
order), and a counter supplying fresh tokens. -/
structure IOSModuleState where
  outputs : List IOSPortType
  routeChangeObserver : Option Nat
  centerObservers : List Nat
  nextToken : Nat
  deriving DecidableEq, Repr

/-- iOS `startObservingRouteChanges`: unconditionally adds an observer for
`AVAudioSession.routeChangeNotification` to the `NotificationCenter` and
stores the returned token in `routeChangeObserver` (overwriting any token
already stored; the Swift function has no guard). -/
def iosStartObservingRouteChanges (s : IOSModuleState) : IOSModuleState :=
  { s with
    routeChangeObserver := some s.nextToken
    centerObservers := s.centerObservers ++ [s.nextToken]
    nextToken := s.nextToken + 1 }

/-- iOS `stopObservingRouteChanges`: returns early when `routeChangeObserver`
is nil; otherwise removes the stored observer from the `NotificationCenter`
and nils `routeChangeObserver`. -/
def iosStopObservingRouteChanges (s : IOSModuleState) : IOSModuleState :=
  if s.routeChangeObserver.isNone then s
  else
    { s with
      centerObservers :=
        s.centerObservers.filter (fun r => !(s.routeChangeObserver = some r))
      routeChangeObserver := none }

/-- A freshly created iOS module (`routeChangeObserver` starts nil, no
observer registered) whose session reports the given output ports. -/
def iosInitial (outputs : List IOSPortType) : IOSModuleState :=
  { outputs := outputs
    routeChangeObserver := none
    centerObservers := []
    nextToken := 0 }

/-- A freshly created Android module after `OnCreate` (no callback stored or
registered), with the given `audioManager` acquisition result. -/
def androidInitial (am : Option (List AndroidDeviceType)) : AndroidModuleState :=
  { audioManager := am
    deviceCallback := none
    platformRegistrations := []
    nextCallbackId := 0 }

/-- Android `OnStartObserving("onAudioRouteChange")` block: sends one
`onAudioRouteChange` event carrying `currentRoute()`, then calls
`startObservingRouteChanges()`. Returns the new state and the list of events
the block emits, in order. -/
def androidOnStartObserving (s : AndroidModuleState) :
    AndroidModuleState × List RouteChangeEvent :=
  (androidStartObservingRouteChanges s, [{ route := androidCurrentRoute s.audioManager }])

/-- iOS `OnStartObserving("onAudioRouteChange")` block: sends one
`onAudioRouteChange` event carrying `currentRoute()`, then calls
`startObservingRouteChanges()`. Returns the new state and the list of events
the block emits, in order. -/
def iosOnStartObserving (s : IOSModuleState) :
    IOSModuleState × List RouteChangeEvent :=
  (iosStartObservingRouteChanges s, [{ route := iosCurrentRoute s.outputs }])

/-- The two signals the registered Android `AudioDeviceCallback` receives. -/
inductive AndroidDeviceSignal where
  | audioDevicesAdded
  | audioDevicesRemoved
  deriving DecidableEq, Repr

/-- The local `onChange` helper inside Android `startObservingRouteChanges`:
sends one `onAudioRouteChange` event carrying `currentRoute()` evaluated
against the then-current device enumeration. -/
def androidOnChange (audioManager : Option (List AndroidDeviceType)) :
    List RouteChangeEvent :=
  [{ route := androidCurrentRoute audioManager }]

/-- The registered `AudioDeviceCallback` object: both overrides,
`onAudioDevicesAdded` and `onAudioDevicesRemoved`, delegate to `onChange`. -/
def androidDeviceCallbackRun (audioManager : Option (List AndroidDeviceType))
    (sig : AndroidDeviceSignal) : List RouteChangeEvent :=
  match sig with
  | .audioDevicesAdded => androidOnChange audioManager
  | .audioDevicesRemoved => androidOnChange audioManager

/-- Events emitted while the Android observer handles a sequence of platform
signals, each paired with the device enumeration current at its delivery. -/
def androidProcessSignals
    (sigs : List (AndroidDeviceSignal × Option (List AndroidDeviceType))) :
    List RouteChangeEvent :=
  (sigs.map (fun p => androidDeviceCallbackRun p.2 p.1)).flatten

/-- The iOS `handleRouteChange` closure registered with the
`NotificationCenter`: sends one `onAudioRouteChange` event carrying
`currentRoute()` evaluated against the then-current session outputs. -/
def iosHandleRouteChange (outputs : List IOSPortType) : List RouteChangeEvent :=
  [{ route := iosCurrentRoute outputs }]

/-- Events emitted while the iOS observer handles a sequence of route-change
deliveries, each carrying the session outputs current at its delivery. -/
def iosProcessSignals (sigs : List (List IOSPortType)) : List RouteChangeEvent :=
  (sigs.map iosHandleRouteChange).flatten

/-- Web `getCurrentRouteAsync` (`ExpoAudioRouteModule.web.ts`): resolves to
the constant string. -/
def webGetCurrentRouteAsync : String := "unknown"

/-- Web `useAudioRouteChangedEvent` (`ExpoAudioRouteModule.web.ts`): returns
the constant object. -/
def webUseAudioRouteChangedEvent : RouteChangeEvent := { route := "unknown" }

/-- The members the web module class defines (its whole surface is the one
async function; there is no observer machinery). -/
inductive WebModuleCall where
  | getCurrentRouteAsync
  deriving DecidableEq, Repr

/-- `onAudioRouteChange` events a web module member emits when invoked: the
web class never calls an emit primitive. -/
def webEmittedEvents : WebModuleCall → List RouteChangeEvent
  | .getCurrentRouteAsync => []

/-- Helper: on a non-empty enumeration the Android classifier's result is
decided by which buckets are inhabited, in the priority order of the Kotlin
`when` expression. -/
theorem androidCurrentRoute_char (l : List AndroidDeviceType) (hne : l ≠ []) :
    androidCurrentRoute (some l) =
      if ∃ t ∈ l, t ∈ wiredTypes then "wiredHeadset"
      else if ∃ t ∈ l, t ∈ bluetoothTypes then "bluetooth"
      else if ∃ t ∈ l, t ∈ speakerTypes then "speaker"
      else "unknown" := by
  have hE : l.isEmpty = false := by
    cases l with
    | nil => exact absurd rfl hne
    | cons a as => rfl
  cases hw : l.find? (fun t => t ∈ wiredTypes) with
  | some w =>
    have hwW : w ∈ wiredTypes := by simpa using List.find?_some hw
    have hex : ∃ t ∈ l, t ∈ wiredTypes :=
      ⟨w, List.mem_of_find?_eq_some hw, hwW⟩
    simp [androidCurrentRoute, hE, hw, hwW, hex]
  | none =>
    have hnw : ∀ t ∈ l, t ∉ wiredTypes := by
      intro t ht
      have := List.find?_eq_none.mp hw t ht
      simpa using this
    have hnex : ¬ ∃ t ∈ l, t ∈ wiredTypes := by
      rintro ⟨t, ht, htw⟩; exact hnw t ht htw
    cases hb : l.find? (fun t => t ∈ bluetoothTypes) with
    | some b =>
      have hbB : b ∈ bluetoothTypes := by simpa using List.find?_some hb
      have hbW : b ∉ wiredTypes := hnw b (List.mem_of_find?_eq_some hb)
      have hexb : ∃ t ∈ l, t ∈ bluetoothTypes :=
        ⟨b, List.mem_of_find?_eq_some hb, hbB⟩
      simp [androidCurrentRoute, hE, hw, hb, hbB, hbW, hnex, hexb]
    | none =>
      have hnb : ∀ t ∈ l, t ∉ bluetoothTypes := by
        intro t ht
        have := List.find?_eq_none.mp hb t ht
        simpa using this
      have hnexb : ¬ ∃ t ∈ l, t ∈ bluetoothTypes := by
        rintro ⟨t, ht, htb⟩; exact hnb t ht htb
      cases hs : l.find? (fun t => t ∈ speakerTypes) with
      | some c =>
        have hcS : c ∈ speakerTypes := by simpa using List.find?_some hs
        have hcW : c ∉ wiredTypes := hnw c (List.mem_of_find?_eq_some hs)
        have hcB : c ∉ bluetoothTypes := hnb c (List.mem_of_find?_eq_some hs)
        have hexs : ∃ t ∈ l, t ∈ speakerTypes :=
          ⟨c, List.mem_of_find?_eq_some hs, hcS⟩
        simp [androidCurrentRoute, hE, hw, hb, hs, hcS, hcW, hcB, hnex, hnexb, hexs]
      | none =>
        have hns : ∀ t ∈ l, t ∉ speakerTypes := by
          intro t ht
          have := List.find?_eq_none.mp hs t ht
          simpa using this
        have hnexs : ¬ ∃ t ∈ l, t ∈ speakerTypes := by
          rintro ⟨t, ht, hts⟩; exact hns t ht hts
        simp [androidCurrentRoute, hE, hw, hb, hs, hnex, hnexb, hnexs]

/-- C1: the claim as stated is false on the iOS implementation. For the
concrete device set {built-in speaker, wired headphones} — two categories
present, highest-priority bucket wired — iOS `currentRoute` returns
"speaker", not "wiredHeadset", when the speaker port comes first, yet
"wiredHeadset" when the headphone port comes first: the result depends on
the order of the collection and is not the highest-priority bucket. -/
theorem C1_counterexample :
    iosCurrentRoute [IOSPortType.builtInSpeaker, IOSPortType.headphones] = "speaker" ∧
    iosCurrentRoute [IOSPortType.builtInSpeaker, IOSPortType.headphones] ≠ "wiredHeadset" ∧
    iosCurrentRoute [IOSPortType.headphones, IOSPortType.builtInSpeaker] = "wiredHeadset" := by
  refine ⟨rfl, ?_, rfl⟩
  decide

/-- C1 (amended): on Android, for any device set containing a device of a
recognized bucket, `currentRoute` returns the route of the highest-priority
inhabited bucket, in the fixed order wired > bluetooth > speaker, regardless
of the order of the devices. On iOS, `currentRoute` inspects only the first
output port, so its result is a function of the first element alone. -/
theorem C1_amended :
    (∀ l : List AndroidDeviceType,
      ((∃ t ∈ l, t ∈ wiredTypes) → androidCurrentRoute (some l) = "wiredHeadset") ∧
      ((¬ ∃ t ∈ l, t ∈ wiredTypes) → (∃ t ∈ l, t ∈ bluetoothTypes) →
        androidCurrentRoute (some l) = "bluetooth") ∧
      ((¬ ∃ t ∈ l, t ∈ wiredTypes) → (¬ ∃ t ∈ l, t ∈ bluetoothTypes) →
        (∃ t ∈ l, t ∈ speakerTypes) → androidCurrentRoute (some l) = "speaker")) ∧
    (∀ (p : IOSPortType) (restA restB : List IOSPortType),
      iosCurrentRoute (p :: restA) = iosCurrentRoute (p :: restB)) := by
  constructor
  · intro l
    refine ⟨?_, ?_, ?_⟩
    · intro h
      have hne : l ≠ [] := by rintro rfl; simp at h
      rw [androidCurrentRoute_char l hne]
      simp [h]
    · intro hw hb
      have hne : l ≠ [] := by rintro rfl; simp at hb
      rw [androidCurrentRoute_char l hne]
      simp [hw, hb]
    · intro hw hb hs
      have hne : l ≠ [] := by rintro rfl; simp at hs
      rw [androidCurrentRoute_char l hne]
      simp [hw, hb, hs]
  · intro p restA restB
    cases p <;> rfl

/-- Witness for C1 (amended) at concrete inputs: a speaker + A2DP set on
Android classifies as bluetooth, and on iOS appending ports after the first
does not change the result. -/
theorem C1_amended_witness :
    androidCurrentRoute (some [AndroidDeviceType.TYPE_BUILTIN_SPEAKER,
      AndroidDeviceType.TYPE_BLUETOOTH_A2DP]) = "bluetooth" ∧
    iosCurrentRoute [IOSPortType.bluetoothA2DP, IOSPortType.builtInSpeaker] =
      iosCurrentRoute [IOSPortType.bluetoothA2DP] := by
  constructor
  · exact (C1_amended.1 _).2.1 (by decide)
      ⟨AndroidDeviceType.TYPE_BLUETOOTH_A2DP, by decide, by decide⟩
  · exact C1_amended.2 IOSPortType.bluetoothA2DP [IOSPortType.builtInSpeaker] []

/-- C2: the claim as stated is false. A Bluetooth low-energy audio device
(`TYPE_BLE_HEADSET`) as a singleton on Android classifies as "unknown", not
"bluetooth" (the Android bucket lists only A2DP and SCO); a USB headset
(`usbAudio`) and a built-in earpiece (`builtInReceiver`) as singletons on
iOS classify as "unknown" (the Swift switch has no case for them). -/
theorem C2_counterexample :
    androidCurrentRoute (some [AndroidDeviceType.TYPE_BLE_HEADSET]) = "unknown" ∧
    androidCurrentRoute (some [AndroidDeviceType.TYPE_BLE_HEADSET]) ≠ "bluetooth" ∧
    iosCurrentRoute [IOSPortType.usbAudio] = "unknown" ∧
    iosCurrentRoute [IOSPortType.builtInReceiver] = "unknown" := by
  refine ⟨rfl, ?_, rfl, rfl⟩
  decide

/-- C2 (amended): singleton classification holds for the bucket members each
platform recognizes. Android: wired headphone, wired headset and USB headset
classify as wiredHeadset; Bluetooth A2DP and Bluetooth hands-free (SCO) as
bluetooth; built-in speaker and earpiece as speaker; a Bluetooth low-energy
audio device as unknown. iOS: headphones and headset-mic classify as
wiredHeadset; Bluetooth A2DP, LE and HFP as bluetooth; the built-in speaker
as speaker; a USB headset or the built-in receiver (earpiece) as unknown. -/
theorem C2_amended :
    androidCurrentRoute (some [AndroidDeviceType.TYPE_WIRED_HEADPHONES]) = "wiredHeadset" ∧
    androidCurrentRoute (some [AndroidDeviceType.TYPE_WIRED_HEADSET]) = "wiredHeadset" ∧
    androidCurrentRoute (some [AndroidDeviceType.TYPE_USB_HEADSET]) = "wiredHeadset" ∧
    androidCurrentRoute (some [AndroidDeviceType.TYPE_BLUETOOTH_A2DP]) = "bluetooth" ∧
    androidCurrentRoute (some [AndroidDeviceType.TYPE_BLUETOOTH_SCO]) = "bluetooth" ∧
    androidCurrentRoute (some [AndroidDeviceType.TYPE_BUILTIN_SPEAKER]) = "speaker" ∧
    androidCurrentRoute (some [AndroidDeviceType.TYPE_BUILTIN_EARPIECE]) = "speaker" ∧
    androidCurrentRoute (some [AndroidDeviceType.TYPE_BLE_HEADSET]) = "unknown" ∧
    iosCurrentRoute [IOSPortType.headphones] = "wiredHeadset" ∧
    iosCurrentRoute [IOSPortType.headsetMic] = "wiredHeadset" ∧
    iosCurrentRoute [IOSPortType.bluetoothA2DP] = "bluetooth" ∧
    iosCurrentRoute [IOSPortType.bluetoothLE] = "bluetooth" ∧
    iosCurrentRoute [IOSPortType.bluetoothHFP] = "bluetooth" ∧
    iosCurrentRoute [IOSPortType.builtInSpeaker] = "speaker" ∧
    iosCurrentRoute [IOSPortType.usbAudio] = "unknown" ∧
    iosCurrentRoute [IOSPortType.builtInReceiver] = "unknown" := by
  repeat' constructor

/-- C3: totality of the classifier on both platforms: every input — the
null-manager case, the empty enumeration, and collections of arbitrary
(also unrecognized) types — yields one of the four `AudioRoute` values. -/
theorem C3_totality :
    ∀ (o : Option (List AndroidDeviceType)) (outs : List IOSPortType),
      androidCurrentRoute o ∈ (["speaker", "wiredHeadset", "bluetooth", "unknown"] : List String) ∧
      iosCurrentRoute outs ∈ (["speaker", "wiredHeadset", "bluetooth", "unknown"] : List String) := by
  intro o outs
  constructor
  · match o with
    | none => decide
    | some l =>
      by_cases hne : l = []
      · subst hne; decide
      · rw [androidCurrentRoute_char l hne]
        split_ifs <;> decide
  · match outs with
    | [] => decide
    | p :: rest => cases p <;> simp [iosCurrentRoute]

/-- C4: the claim as stated is false on the iOS implementation. Starting
from the freshly created module, one `startObservingRouteChanges` call
registers observer token 0; a second call while that registration is active
registers a second observer (token 1), so the platform registration list
grows to two entries and the stored handle is replaced. -/
theorem C4_counterexample :
    (iosStartObservingRouteChanges (iosInitial [])).centerObservers = [0] ∧
    (iosStartObservingRouteChanges (iosStartObservingRouteChanges
      (iosInitial []))).centerObservers = [0, 1] ∧
    (iosStartObservingRouteChanges (iosStartObservingRouteChanges
      (iosInitial []))).routeChangeObserver = some 1 := by
  refine ⟨rfl, rfl, rfl⟩

/-- C4 (amended): starting the Change Observer is idempotent on the Android
implementation — a second `startObservingRouteChanges` call is a no-op, so
at most one callback registration results. On the iOS implementation,
`startObservingRouteChanges` unconditionally appends a new observer
registration and overwrites the stored handle with the fresh token, so a
call while active creates a second platform registration; one registration
per activation holds only because the framework invokes it solely on the
idle-to-active transition. -/
theorem C4_amended :
    (∀ s : AndroidModuleState,
      androidStartObservingRouteChanges (androidStartObservingRouteChanges s) =
        androidStartObservingRouteChanges s) ∧
    (∀ s : IOSModuleState,
      (iosStartObservingRouteChanges s).centerObservers =
        s.centerObservers ++ [s.nextToken] ∧
      (iosStartObservingRouteChanges s).routeChangeObserver = some s.nextToken) := by
  constructor
  · intro s
    by_cases h : (s.deviceCallback.isSome || s.audioManager.isNone) = true
    · simp [androidStartObservingRouteChanges, h]
    · have h1 : androidStartObservingRouteChanges s =
        { s with
          deviceCallback := some s.nextCallbackId
          platformRegistrations := s.platformRegistrations ++ [s.nextCallbackId]
          nextCallbackId := s.nextCallbackId + 1 } := by
        simp [androidStartObservingRouteChanges, h]
      rw [h1]
      simp [androidStartObservingRouteChanges]
  · intro s
    exact ⟨rfl, rfl⟩

/-- Helper: both overrides of the registered Android callback emit exactly
the one event carrying the classification of the then-current devices. -/
theorem androidDeviceCallbackRun_eq
    (am : Option (List AndroidDeviceType)) (sig : AndroidDeviceSignal) :
    androidDeviceCallbackRun am sig = [{ route := androidCurrentRoute am }] := by
  cases sig <;> rfl

/-- C5: on the first subscription (the OnStartObserving activation), both
platform implementations emit, within the activation itself and before any
platform signal, exactly one `RouteChangeEvent` carrying the classifier's
result at that instant. -/
theorem C5_immediateEmission :
    ∀ (sa : AndroidModuleState) (si : IOSModuleState),
      (androidOnStartObserving sa).2 =
        [{ route := androidCurrentRoute sa.audioManager }] ∧
      (androidOnStartObserving sa).2.length = 1 ∧
      (iosOnStartObserving si).2 = [{ route := iosCurrentRoute si.outputs }] ∧
      (iosOnStartObserving si).2.length = 1 := by
  intro sa si
  exact ⟨rfl, rfl, rfl, rfl⟩

/-- C6: while the observer is active, each platform signal — the Android
device-added and device-removed overrides behave identically, as does the
iOS route-change delivery — produces exactly one re-classification of the
then-current device set and exactly one emitted event; a sequence of n
signals yields exactly the n corresponding events in order, none dropped,
deduplicated or batched. -/
theorem C6_eventForwarding :
    (∀ (am : Option (List AndroidDeviceType)),
      androidDeviceCallbackRun am AndroidDeviceSignal.audioDevicesAdded =
        androidDeviceCallbackRun am AndroidDeviceSignal.audioDevicesRemoved ∧
      androidDeviceCallbackRun am AndroidDeviceSignal.audioDevicesAdded =
        [{ route := androidCurrentRoute am }]) ∧
    (∀ sigs : List (AndroidDeviceSignal × Option (List AndroidDeviceType)),
      androidProcessSignals sigs =
        sigs.map (fun p => { route := androidCurrentRoute p.2 }) ∧
      (androidProcessSignals sigs).length = sigs.length) ∧
    (∀ sigsI : List (List IOSPortType),
      iosProcessSignals sigsI =
        sigsI.map (fun outs => { route := iosCurrentRoute outs }) ∧
      (iosProcessSignals sigsI).length = sigsI.length) := by
  refine ⟨fun am => ⟨rfl, rfl⟩, ?_, ?_⟩
  · intro sigs
    have hmap : androidProcessSignals sigs =
        sigs.map (fun p => { route := androidCurrentRoute p.2 }) := by
      induction sigs with
      | nil => rfl
      | cons p t ih =>
        simp only [androidProcessSignals, List.map_cons, List.flatten_cons] at ih ⊢
        rw [androidDeviceCallbackRun_eq, ih]
        rfl
    exact ⟨hmap, by rw [hmap, List.length_map]⟩
  · intro sigsI
    have hmap : iosProcessSignals sigsI =
        sigsI.map (fun outs => { route := iosCurrentRoute outs }) := by
      induction sigsI with
      | nil => rfl
      | cons p t ih =>
        simp only [iosProcessSignals, List.map_cons, List.flatten_cons] at ih ⊢
        rw [ih]
        rfl
    exact ⟨hmap, by rw [hmap, List.length_map]⟩

/-- C7: the empty enumeration and the never-acquired audio service handle
(null manager) both classify as "unknown" on Android, and the empty output
list classifies as "unknown" on iOS; no error path exists. -/
theorem C7_emptyIsUnknown :
    androidCurrentRoute none = "unknown" ∧
    androidCurrentRoute (some []) = "unknown" ∧
    iosCurrentRoute [] = "unknown" :=
  ⟨rfl, rfl, rfl⟩

/-- C8: stopping the Change Observer is idempotent on both platforms. On
Android (under the module invariant that a stored callback implies an
acquired manager — the only way `startObservingRouteChanges` stores one):
with a registration active, stop clears the handle and removes the
registration; while idle, stop is the identity; and after a start from idle,
two stops leave the module idle with the second stop a no-op. The iOS
statements are unconditional. -/
theorem C8_stopIdempotent :
    (∀ s : AndroidModuleState, (s.deviceCallback.isSome → s.audioManager.isSome) →
      (∀ hdl : Nat, s.deviceCallback = some hdl →
        (androidStopObservingRouteChanges s).deviceCallback = none ∧
        hdl ∉ (androidStopObservingRouteChanges s).platformRegistrations) ∧
      (s.deviceCallback = none → androidStopObservingRouteChanges s = s) ∧
      (s.deviceCallback = none →
        (androidStopObservingRouteChanges (androidStopObservingRouteChanges
          (androidStartObservingRouteChanges s))).deviceCallback = none ∧
        androidStopObservingRouteChanges (androidStopObservingRouteChanges
          (androidStartObservingRouteChanges s)) =
          androidStopObservingRouteChanges (androidStartObservingRouteChanges s))) ∧
    (∀ s : IOSModuleState,
      (∀ hdl : Nat, s.routeChangeObserver = some hdl →
        (iosStopObservingRouteChanges s).routeChangeObserver = none ∧
        hdl ∉ (iosStopObservingRouteChanges s).centerObservers) ∧
      (s.routeChangeObserver = none → iosStopObservingRouteChanges s = s) ∧
      (s.routeChangeObserver = none →
        (iosStopObservingRouteChanges (iosStopObservingRouteChanges
          (iosStartObservingRouteChanges s))).routeChangeObserver = none ∧
        iosStopObservingRouteChanges (iosStopObservingRouteChanges
          (iosStartObservingRouteChanges s)) =
          iosStopObservingRouteChanges (iosStartObservingRouteChanges s))) := by
  constructor
  · intro s hinv
    refine ⟨?_, ?_, ?_⟩
    · intro hdl hact
      have ham : s.audioManager.isSome := hinv (by rw [hact]; rfl)
      have hamN : s.audioManager.isNone = false := by
        cases hma : s.audioManager with
        | none => rw [hma] at ham; exact absurd ham (by decide)
        | some l => rfl
      have hres : androidStopObservingRouteChanges s =
          { s with
            platformRegistrations :=
              s.platformRegistrations.filter (fun r => !(s.deviceCallback = some r))
            deviceCallback := none } := by
        simp [androidStopObservingRouteChanges, hact, hamN]
      rw [hres]
      refine ⟨rfl, ?_⟩
      intro hmem
      have := (List.mem_filter.mp hmem).2
      rw [hact] at this
      simp at this
    · intro hidle
      simp [androidStopObservingRouteChanges, hidle]
    · intro hidle
      cases hma : s.audioManager with
      | none =>
        have hst : androidStartObservingRouteChanges s = s := by
          simp [androidStartObservingRouteChanges, hma]
        have hsp : androidStopObservingRouteChanges s = s := by
          simp [androidStopObservingRouteChanges, hidle]
        rw [hst, hsp, hsp]
        exact ⟨hidle, rfl⟩
      | some l =>
        have hst : androidStartObservingRouteChanges s =
            { s with
              deviceCallback := some s.nextCallbackId
              platformRegistrations := s.platformRegistrations ++ [s.nextCallbackId]
              nextCallbackId := s.nextCallbackId + 1 } := by
          simp [androidStartObservingRouteChanges, hidle, hma]
        rw [hst]
        have hsp1 : androidStopObservingRouteChanges
            { s with
              deviceCallback := some s.nextCallbackId
              platformRegistrations := s.platformRegistrations ++ [s.nextCallbackId]
              nextCallbackId := s.nextCallbackId + 1 } =
            { s with
              deviceCallback := none
              platformRegistrations := (s.platformRegistrations ++
                [s.nextCallbackId]).filter (fun r => !(some s.nextCallbackId = some r))
              nextCallbackId := s.nextCallbackId + 1 } := by
          simp [androidStopObservingRouteChanges, hma]
        rw [hsp1]
        have hsp2 : androidStopObservingRouteChanges
            { s with
              deviceCallback := none
              platformRegistrations := (s.platformRegistrations ++
                [s.nextCallbackId]).filter (fun r => !(some s.nextCallbackId = some r))
              nextCallbackId := s.nextCallbackId + 1 } =
            { s with
              deviceCallback := none
              platformRegistrations := (s.platformRegistrations ++
                [s.nextCallbackId]).filter (fun r => !(some s.nextCallbackId = some r))
              nextCallbackId := s.nextCallbackId + 1 } := by
          simp [androidStopObservingRouteChanges]
        rw [hsp2]
        exact ⟨rfl, rfl⟩
  · intro s
    refine ⟨?_, ?_, ?_⟩
    · intro hdl hact
      have hres : iosStopObservingRouteChanges s =
          { s with
            centerObservers :=
              s.centerObservers.filter (fun r => !(s.routeChangeObserver = some r))
            routeChangeObserver := none } := by
        simp [iosStopObservingRouteChanges, hact]
      rw [hres]
      refine ⟨rfl, ?_⟩
      intro hmem
      have := (List.mem_filter.mp hmem).2
      rw [hact] at this
      simp at this
    · intro hidle
      simp [iosStopObservingRouteChanges, hidle]
    · intro hidle
      have hst : iosStartObservingRouteChanges s =
          { s with
            routeChangeObserver := some s.nextToken
            centerObservers := s.centerObservers ++ [s.nextToken]
            nextToken := s.nextToken + 1 } := rfl
      rw [hst]
      have hsp1 : iosStopObservingRouteChanges
          { s with
            routeChangeObserver := some s.nextToken
            centerObservers := s.centerObservers ++ [s.nextToken]
            nextToken := s.nextToken + 1 } =
          { s with
            routeChangeObserver := none
            centerObservers := (s.centerObservers ++
              [s.nextToken]).filter (fun r => !(some s.nextToken = some r))
            nextToken := s.nextToken + 1 } := by
        simp [iosStopObservingRouteChanges]
      rw [hsp1]
      have hsp2 : iosStopObservingRouteChanges
          { s with
            routeChangeObserver := none
            centerObservers := (s.centerObservers ++
              [s.nextToken]).filter (fun r => !(some s.nextToken = some r))
            nextToken := s.nextToken + 1 } =
          { s with
            routeChangeObserver := none
            centerObservers := (s.centerObservers ++
              [s.nextToken]).filter (fun r => !(some s.nextToken = some r))
            nextToken := s.nextToken + 1 } := by
        simp [iosStopObservingRouteChanges]
      rw [hsp2]
      exact ⟨rfl, rfl⟩

/-- Witness for C8 at concrete states: on Android with an acquired manager,
start followed by two stops leaves the callback cleared; on iOS, stop on the
freshly created (idle) module is a no-op. -/
theorem C8_stopIdempotent_witness :
    (androidStopObservingRouteChanges (androidStopObservingRouteChanges
      (androidStartObservingRouteChanges (androidInitial (some []))))).deviceCallback =
        none ∧
    iosStopObservingRouteChanges (iosInitial []) = iosInitial [] := by
  exact ⟨((C8_stopIdempotent.1 (androidInitial (some [])) (by decide)).2.2 rfl).1,
    (C8_stopIdempotent.2 (iosInitial [])).2.1 rfl⟩

/-- C9: when the audio service handle was never acquired (null manager),
Android `startObservingRouteChanges` returns early — no registration, no
state change, no error — and `currentRoute` falls back to "unknown" through
the null/empty-enumeration path. -/
theorem C9_nullManagerStart :
    ∀ s : AndroidModuleState, s.audioManager = none →
      androidStartObservingRouteChanges s = s ∧
      androidCurrentRoute s.audioManager = "unknown" := by
  intro s h
  refine ⟨?_, ?_⟩
  · simp [androidStartObservingRouteChanges, h]
  · rw [h]
    rfl

/-- Witness for C9 at the freshly created module whose manager acquisition
failed. -/
theorem C9_nullManagerStart_witness :
    androidStartObservingRouteChanges (androidInitial none) = androidInitial none ∧
    androidCurrentRoute (androidInitial none).audioManager = "unknown" :=
  C9_nullManagerStart (androidInitial none) rfl

/-- C10: the web module is a constant-valued stub: `getCurrentRouteAsync`
resolves to "unknown", `useAudioRouteChangedEvent` returns
`{ route: "unknown" }`, and no member of the web class ever emits an
`onAudioRouteChange` event. -/
theorem C10_webStub :
    webGetCurrentRouteAsync = "unknown" ∧
    webUseAudioRouteChangedEvent = { route := "unknown" } ∧
    ∀ c : WebModuleCall, webEmittedEvents c = [] := by
  refine ⟨rfl, rfl, ?_⟩
  intro c
  cases c
  rfl
